import Mathlib

/-
  Verification development for the Arcesso HTTP client.

  Shallow embedding of the request pipeline: errors (src/errors.ts), the
  retry controller (src/retry.ts), the request executor (src/core.ts), the
  response wrapper (src/response.ts), the callback dispatcher
  (src/callback-validator.ts) and the request orchestrator (src/methods.ts).

  JavaScript values that flow through the pipeline are modelled by the
  inductive type Value; thrown errors by Err; a Standard Schema is modelled
  as a total function from Value to a tagged validation outcome StdResult
  (the schema libraries are external collaborators).  Asynchronous code is
  modelled by explicit Except-valued functions; the underlying fetch
  primitive is an oracle mapping the attempt index to its outcome.
-/

namespace Arcesso

/-- One structured validation issue (only the message field is relevant
to the control flow of the program). -/
structure Issue where
  message : String
deriving Repr, DecidableEq

/-- The part of a platform Response object the pipeline inspects:
status and statusText.  (src/response.ts delegates these to the native
response.) -/
structure RespHandle where
  status : Nat
  statusText : String
deriving Repr, DecidableEq

mutual

/-- A JavaScript value as seen by the pipeline: undefined, null,
primitives, an error object, or a raw response handle (the latter two are
passed as callback inputs by src/methods.ts). -/
inductive Value where
  | vUndefined : Value
  | vNull : Value
  | vBool (b : Bool) : Value
  | vNum (n : Int) : Value
  | vStr (s : String) : Value
  | vErr (e : Err) : Value
  | vResp (h : RespHandle) : Value

/-- The error classes of src/errors.ts, plus jsError for any other
JavaScript Error (e.g. a SyntaxError raised by JSON parsing or an
AbortError raised by a timed-out fetch). -/
inductive Err where
  | validationError (message : String) (issues : List Issue) : Err
  | networkError (message : String) (cause : Option Err) : Err
  | httpError (message : String) (h : RespHandle) (data : Option Value) : Err
  | timeoutError (message : String) (timeoutMs : Nat) : Err
  | retryExhaustedError (message : String) (attempts : Nat) (lastError : Option Err) : Err
  | jsError (name : String) (message : String) : Err

end

/-- result !== undefined, as a boolean test on the model of values. -/
def Value.isUndefined : Value → Bool
  | .vUndefined => true
  | _ => false

/-- body !== null, as a boolean test on the model of values. -/
def Value.isNull : Value → Bool
  | .vNull => true
  | _ => false

/-- instanceof ValidationError. -/
def Err.isValidation : Err → Bool
  | .validationError _ _ => true
  | _ => false

/-- instanceof NetworkError. -/
def Err.isNetwork : Err → Bool
  | .networkError _ _ => true
  | _ => false

/-- instanceof HttpError. -/
def Err.isHttp : Err → Bool
  | .httpError _ _ _ => true
  | _ => false

/-- instanceof TimeoutError. -/
def Err.isTimeout : Err → Bool
  | .timeoutError _ _ => true
  | _ => false

/-- instanceof RetryExhaustedError. -/
def Err.isRetryExhausted : Err → Bool
  | .retryExhaustedError _ _ _ => true
  | _ => false

/-- The name property of the error (each class of src/errors.ts overrides
name with its class name; jsError carries its own). -/
def Err.name : Err → String
  | .validationError _ _ => "ValidationError"
  | .networkError _ _ => "NetworkError"
  | .httpError _ _ _ => "HttpError"
  | .timeoutError _ _ => "TimeoutError"
  | .retryExhaustedError _ _ _ => "RetryExhaustedError"
  | .jsError n _ => n

/-- The message property of the error. -/
def Err.message : Err → String
  | .validationError m _ => m
  | .networkError m _ => m
  | .httpError m _ _ => m
  | .timeoutError m _ => m
  | .retryExhaustedError m _ _ => m
  | .jsError _ m => m

/-- The status property of an HttpError (error.status, copied from the
response by the constructor); 0 for other errors, which never reach the
status test. -/
def Err.status : Err → Nat
  | .httpError _ h _ => h.status
  | _ => 0

/-- a.includes(b): substring test on strings. -/
def msgIncludes (s pat : String) : Bool := decide (pat.data <:+: s.data)

/-- a.startsWith(b): prefix test on strings. -/
def msgStartsWith (s pre : String) : Bool := pre.data.isPrefixOf s.data

/-- A Standard Schema validation outcome: a well-formed result object is
either a Success carrying a value or a Failure carrying an issues array
(the array may be empty; in JavaScript an empty array is still truthy). -/
inductive StdResult where
  | success (value : Value) : StdResult
  | failure (issues : List Issue) : StdResult

/-- A schema is its validate function (external collaborator). -/
def Schema : Type := Value → StdResult

/-- issues[0]?.message || fallback to the generic text: the empty string
is falsy in JavaScript, hence also falls back. -/
def firstIssueMessage (issues : List Issue) : String :=
  match issues with
  | [] => "Unknown validation error"
  | i :: _ => if i.message = "" then "Unknown validation error" else i.message

/-! ## Retry controller (src/retry.ts) -/

/-- The backoff kind of a retry policy. -/
inductive Backoff where
  | linear : Backoff
  | exponential : Backoff
deriving Repr, DecidableEq

/-- User-supplied RetryOptions; absent fields are none.  Delays are in
milliseconds and modelled as naturals. -/
structure RetryOptions where
  attempts : Option Nat := none
  backoff : Option Backoff := none
  initialDelay : Option Nat := none
  maxDelay : Option Nat := none
  retryOn : Option (List Nat) := none

/-- Required RetryOptions: every field present (after merging with the
defaults). -/
structure RetryOptionsR where
  attempts : Nat
  backoff : Backoff
  initialDelay : Nat
  maxDelay : Nat
  retryOn : List Nat

/-- DEFAULT_RETRY_OPTIONS of src/retry.ts. -/
def DEFAULT_RETRY_OPTIONS : RetryOptionsR :=
  ⟨3, Backoff.exponential, 1000, 10000, [408, 429, 500, 502, 503, 504]⟩

/-- The spread merge at the top of withRetry: present fields of the
user options override the defaults field by field. -/
def mergeRetryDefaults (o : Option RetryOptions) : RetryOptionsR :=
  match o with
  | none => DEFAULT_RETRY_OPTIONS
  | some o =>
      ⟨o.attempts.getD DEFAULT_RETRY_OPTIONS.attempts,
       o.backoff.getD DEFAULT_RETRY_OPTIONS.backoff,
       o.initialDelay.getD DEFAULT_RETRY_OPTIONS.initialDelay,
       o.maxDelay.getD DEFAULT_RETRY_OPTIONS.maxDelay,
       o.retryOn.getD DEFAULT_RETRY_OPTIONS.retryOn⟩

/-- calculateDelay of src/retry.ts.  For exponential backoff the delay is
initialDelay * 2 to the power (attempt - 1), otherwise initialDelay *
attempt; both capped by maxDelay.  Only ever invoked with attempt at
least 1 by the loop. -/
def calculateDelay (attempt : Nat) (options : RetryOptionsR) : Nat :=
  let delay :=
    match options.backoff with
    | Backoff.exponential => options.initialDelay * 2 ^ (attempt - 1)
    | Backoff.linear => options.initialDelay * attempt
  min delay options.maxDelay

/-- shouldRetry of src/retry.ts: an HttpError is retried iff its status is
in retryOn, a NetworkError always, anything else never. -/
def shouldRetry (error : Err) (options : RetryOptionsR) : Bool :=
  match error with
  | .httpError _ h _ => options.retryOn.contains h.status
  | .networkError _ _ => true
  | _ => false

/-- Observable trace of one withRetry run: the final outcome, the number
of invocations of the wrapped operation, the (attempt, error) pairs passed
to the onRetry observer, and the computed sleep delays. -/
structure RetryTrace (α : Type) where
  result : Except Err α
  calls : Nat
  onRetryCalls : List (Nat × Err)
  delays : List Nat

/-- The for-loop of withRetry, with the attempt counter made explicit and
the remaining number of loop iterations as fuel (the loop body runs while
attempt is at most options.attempts, so fuel = attempts - attempt + 1).
When the fuel runs out the unreachable fallthrough after the loop raises
RetryExhaustedError with the recorded lastError. -/
def withRetryFrom {α : Type} (fn : Nat → Except Err α) (options : RetryOptionsR)
    (attempt : Nat) (lastError : Option Err) : Nat → RetryTrace α
  | 0 =>
      ⟨Except.error (Err.retryExhaustedError
          ("Request failed after " ++ toString options.attempts ++ " attempts")
          options.attempts lastError), 0, [], []⟩
  | fuel + 1 =>
      match fn attempt with
      | .ok v => ⟨Except.ok v, 1, [], []⟩
      | .error e =>
          if attempt = options.attempts || !(shouldRetry e options) then
            ⟨Except.error e, 1, [], []⟩
          else
            let rest := withRetryFrom fn options (attempt + 1) (some e) fuel
            ⟨rest.result, rest.calls + 1, (attempt, e) :: rest.onRetryCalls,
             calculateDelay attempt options :: rest.delays⟩

/-- withRetry of src/retry.ts: merge the options with the defaults, then
run the loop from attempt 1. -/
def withRetry {α : Type} (fn : Nat → Except Err α) (retryOptions : Option RetryOptions) :
    RetryTrace α :=
  let options := mergeRetryDefaults retryOptions
  withRetryFrom fn options 1 none options.attempts

/-! ## Response wrapper (src/response.ts) -/

/-- An EnhancedResponse: the status/statusText handle together with the
outcome of reading and JSON-parsing the body (ok: the parsed value;
error: the message of the SyntaxError the parse raises). -/
structure Resp where
  handle : RespHandle
  parse : Except String Value

/-- response.ok per the fetch specification: status in the range 200-299. -/
def RespHandle.ok (h : RespHandle) : Bool :=
  200 ≤ h.status && h.status ≤ 299

/-- EnhancedResponse.json of src/response.ts: parse the body, then with a
schema validate the parsed value.  A well-formed success whose value is
undefined falls through both guards to the generic ValidationError. -/
def Resp.json (r : Resp) (schema : Option Schema) : Except Err Value :=
  match r.parse with
  | .error m => Except.error (Err.jsError "SyntaxError" m)
  | .ok data =>
      match schema with
      | none => Except.ok data
      | some s =>
          match s data with
          | .success v =>
              if v.isUndefined then
                Except.error (Err.validationError "Unknown validation error" [])
              else Except.ok v
          | .failure issues =>
              Except.error (Err.validationError
                ("Response validation failed: " ++ firstIssueMessage issues) issues)

/-! ## Request executor (src/core.ts) -/

/-- The outcome of one invocation of the underlying fetch primitive
(external collaborator): a response, or a rejection with a JavaScript
error (TypeError on network failure, TimeoutError or AbortError from the
timeout signal, ...). -/
inductive FetchOut where
  | success (r : Resp) : FetchOut
  | failure (e : Err) : FetchOut

/-- The message of the HttpError constructed by the executor. -/
def httpMsg (h : RespHandle) : String :=
  "HTTP " ++ toString h.status ++ ": " ++ h.statusText

/-- if (timeout) in the executor: the timeout option is truthy. -/
def truthyTimeout : Option Nat → Bool
  | none => false
  | some n => !(n = 0)

/-- The string interpolation of the timeout variable in the TimeoutError
message. -/
def timeoutShow : Option Nat → String
  | none => "undefined"
  | some n => toString n

/-- The catch block of fetchWithRetry in src/core.ts: an HttpError is
re-raised; an error named TimeoutError, or named AbortError while a
timeout was set, becomes a TimeoutError; everything else is wrapped in a
NetworkError. -/
def classifyFetchFailure (e : Err) (timeout : Option Nat) : Err :=
  if e.isHttp then e
  else if e.name = "TimeoutError" || (e.name = "AbortError" && truthyTimeout timeout) then
    Err.timeoutError ("Request timed out after " ++ timeoutShow timeout ++ "ms")
      ((timeout.getD 0))
  else
    Err.networkError ("Network error: " ++ e.message) (some e)

/-- The try block of fetchWithRetry in src/core.ts for one fetch outcome:
a rejected fetch re-raises its error; a non-ok response with an error
schema clones the body and validates it, raising HttpError with the
validated data on success, HttpError without data when validation raises
a ValidationError, and re-raising any other error from the clone, parse
and validate step; a non-ok response without an error schema raises
HttpError without data; an ok response is returned. -/
def fetchTryBody (f : FetchOut) (errorSchema : Option Schema) : Except Err Resp :=
  match f with
  | .failure e => Except.error e
  | .success r =>
      if !r.handle.ok then
        match errorSchema with
        | some s =>
            match r.json (some s) with
            | .ok errorData =>
                Except.error (Err.httpError (httpMsg r.handle) r.handle (some errorData))
            | .error ve =>
                if ve.isValidation then
                  Except.error (Err.httpError (httpMsg r.handle) r.handle none)
                else Except.error ve
        | none => Except.error (Err.httpError (httpMsg r.handle) r.handle none)
      else Except.ok r

/-- One attempt of fetchWithRetry: the try block, with every raised error
passed through the classifying catch block. -/
def fetchWithRetryBody (f : FetchOut) (timeout : Option Nat)
    (errorSchema : Option Schema) : Except Err Resp :=
  match fetchTryBody f errorSchema with
  | .ok r => Except.ok r
  | .error e => Except.error (classifyFetchFailure e timeout)

/-- executeHttpRequest of src/core.ts: run fetchWithRetry under the retry
controller when a retry policy is present, else once.  The fetch oracle
maps the attempt index to that attempt's fetch outcome. -/
def executeHttpRequestT (fetchFn : Nat → FetchOut) (retry : Option RetryOptions)
    (timeout : Option Nat) (errorSchema : Option Schema) : RetryTrace Resp :=
  match retry with
  | some r => withRetry (fun k => fetchWithRetryBody (fetchFn k) timeout errorSchema) (some r)
  | none => ⟨fetchWithRetryBody (fetchFn 1) timeout errorSchema, 1, [], []⟩

/-! ## Callback dispatcher (src/callback-validator.ts) -/

/-- A callback slot value: a plain handler function, or a schema/handler
pair.  Handlers may themselves raise. -/
inductive CallbackOption where
  | plain (handler : Value → Except Err Value) : CallbackOption
  | withSchema (schema : Schema) (handler : Value → Except Err Value) : CallbackOption

/-- executeCallback of src/callback-validator.ts: an absent callback
passes the input through; a schema/handler pair runs the handler, then
validates its result, raising the distinctly prefixed ValidationError on
failure (the generic variant when the well-formed success value is
undefined); a plain handler returns its result unless that result is
undefined, in which case the input is returned. -/
def executeCallback (callback : Option CallbackOption) (input : Value) : Except Err Value :=
  match callback with
  | none => Except.ok input
  | some (.withSchema schema handler) =>
      match handler input with
      | .error e => Except.error e
      | .ok result =>
          match schema result with
          | .success v =>
              if !v.isUndefined then Except.ok v
              else Except.error
                (Err.validationError "Callback result validation failed: Unknown error" [])
          | .failure issues =>
              Except.error (Err.validationError
                ("Callback result validation failed: " ++ firstIssueMessage issues) issues)
  | some (.plain handler) =>
      match handler input with
      | .error e => Except.error e
      | .ok result => if !result.isUndefined then Except.ok result else Except.ok input

/-! ## Request orchestrator (src/methods.ts) -/

/-- The schema triple of the per-request options. -/
structure Schemas where
  input : Option Schema := none
  success : Option Schema := none
  error : Option Schema := none

/-- The per-request options consulted by executeHttpRequestWithCallbacks
(auth and header construction are orthogonal to the claims and omitted). -/
structure Options where
  schemas : Option Schemas := none
  onSuccess : Option CallbackOption := none
  onError : Option CallbackOption := none
  onNetworkError : Option CallbackOption := none
  onValidationError : Option CallbackOption := none
  onHttpError : Option CallbackOption := none
  onTimeout : Option CallbackOption := none
  retry : Option RetryOptions := none
  timeout : Option Nat := none

/-- options.schemas?.input -/
def Options.inputSchema (o : Options) : Option Schema :=
  match o.schemas with
  | none => none
  | some s => s.input

/-- options.schemas?.success -/
def Options.successSchema (o : Options) : Option Schema :=
  match o.schemas with
  | none => none
  | some s => s.success

/-- options.schemas?.error -/
def Options.errorSchema (o : Options) : Option Schema :=
  match o.schemas with
  | none => none
  | some s => s.error

/-- The global configuration fields consulted per request. -/
structure ArcessoConfig where
  retry : Option RetryOptions := none
  timeout : Option Nat := none

/-- options.retry || globalConfig.retry: an object is always truthy, so a
present per-request policy wins wholesale. -/
def resolveRetry (o : Options) (g : ArcessoConfig) : Option RetryOptions :=
  match o.retry with
  | some r => some r
  | none => g.retry

/-- options.timeout || globalConfig.timeout: JavaScript truthiness, so a
present per-request timeout of 0 falls back to the global default. -/
def resolveTimeout (o : Options) (g : ArcessoConfig) : Option Nat :=
  match o.timeout with
  | some t => if !(t = 0) then some t else g.timeout
  | none => g.timeout

/-- The input-validation gate at the top of executeHttpRequestWithCallbacks:
only when an input schema is present and the body is neither undefined nor
null is the body validated; the raised errors are not routed to any
callback (the gate runs before the try). -/
def validateInputPhase (inputSchema : Option Schema) (body : Value) : Except Err Value :=
  match inputSchema with
  | some s =>
      if !body.isUndefined && !body.isNull then
        match s body with
        | .success v =>
            if !v.isUndefined then Except.ok v
            else Except.error (Err.validationError "Unknown input validation error" [])
        | .failure issues =>
            Except.error (Err.validationError
              ("Input validation failed: " ++ firstIssueMessage issues) issues)
      else Except.ok body
  | none => Except.ok body

/-- The inner try of executeHttpRequestWithCallbacks: parse (and validate)
the success body, then dispatch onSuccess when registered. -/
def parsePhase (o : Options) (response : Resp) : Except Err Value :=
  match response.json o.successSchema with
  | .error e => Except.error e
  | .ok data =>
      match o.onSuccess with
      | some cb => executeCallback (some cb) data
      | none => Except.ok data

/-- The inner catch of executeHttpRequestWithCallbacks: any ValidationError
is dispatched to onValidationError when registered, every other error is
re-raised (into the outer catch). -/
def innerCatchPhase (o : Options) (e : Err) : Except Err Value :=
  if e.isValidation then
    match o.onValidationError with
    | some cb => executeCallback (some cb) (Value.vErr e)
    | none => Except.error e
  else Except.error e

/-- The input handed to onHttpError: error.data when present and not
undefined, else the raw response handle. -/
def httpCallbackInput : Err → Value
  | .httpError _ h data =>
      match data with
      | some v => if !v.isUndefined then v else Value.vResp h
      | none => Value.vResp h
  | e => Value.vErr e

/-- The outer catch of executeHttpRequestWithCallbacks: a ValidationError
whose message contains the callback-result prefix is re-raised before any
routing; then HttpError, NetworkError and TimeoutError go to their slots
when registered, anything left goes to onError when registered, and
otherwise the error is re-raised to the caller. -/
def routeOuter (o : Options) (e : Err) : Except Err Value :=
  if e.isValidation && msgIncludes e.message "Callback result validation failed" then
    Except.error e
  else if e.isHttp && o.onHttpError.isSome then
    executeCallback o.onHttpError (httpCallbackInput e)
  else if e.isNetwork && o.onNetworkError.isSome then
    executeCallback o.onNetworkError (Value.vErr e)
  else if e.isTimeout && o.onTimeout.isSome then
    executeCallback o.onTimeout (Value.vErr e)
  else if o.onError.isSome then
    executeCallback o.onError (Value.vErr e)
  else Except.error e

/-- The observable outcome of one orchestrator invocation: the value or
error reaching the caller, and how many network exchanges occurred. -/
structure OrchResult where
  result : Except Err Value
  exchanges : Nat

/-- executeHttpRequestWithCallbacks of src/methods.ts: validate the input
(raising before any exchange), execute with retry, then parse the success
body inside the inner try; errors raised by the inner try or its catch,
or by the executor, fall to the outer catch for routing. -/
def executeHttpRequestWithCallbacks (o : Options) (g : ArcessoConfig)
    (body : Value) (fetchFn : Nat → FetchOut) : OrchResult :=
  match validateInputPhase o.inputSchema body with
  | .error e => ⟨Except.error e, 0⟩
  | .ok _ =>
      let trace := executeHttpRequestT fetchFn (resolveRetry o g) (resolveTimeout o g)
        o.errorSchema
      match trace.result with
      | .error e => ⟨routeOuter o e, trace.calls⟩
      | .ok response =>
          match parsePhase o response with
          | .ok v => ⟨Except.ok v, trace.calls⟩
          | .error e =>
              match innerCatchPhase o e with
              | .ok v => ⟨Except.ok v, trace.calls⟩
              | .error e2 => ⟨routeOuter o e2, trace.calls⟩

/-! ## Query construction (prepareUrl of src/methods.ts) -/

/-- A query-parameter value: string, number (restricted to integers in
the model), boolean, null, or undefined. -/
inductive QueryVal where
  | qStr (s : String) : QueryVal
  | qNum (n : Int) : QueryVal
  | qBool (b : Bool) : QueryVal
  | qNull : QueryVal
  | qUndefined : QueryVal
deriving Repr, DecidableEq

/-- value !== null && value !== undefined: the filter applied to query
entries. -/
def keepQV : QueryVal → Bool
  | .qNull => false
  | .qUndefined => false
  | _ => true

/-- String(value) for the kept query values. -/
def stringifyQV : QueryVal → String
  | .qStr s => s
  | .qNum n => toString n
  | .qBool b => if b then "true" else "false"
  | .qNull => "null"
  | .qUndefined => "undefined"

/-- Characters URLSearchParams leaves unescaped in
application/x-www-form-urlencoded serialization. -/
def isUrlencodedSafe (c : Char) : Bool :=
  c.isAlphanum || c = '*' || c = '-' || c = '.' || c = '_'

/-- Upper-case hexadecimal digit. -/
def hexDigit (n : Nat) : Char :=
  if n < 10 then Char.ofNat (48 + n) else Char.ofNat (55 + n)

/-- The UTF-8 serialization of one character, as a list of byte values. -/
def utf8Bytes (c : Char) : List Nat :=
  let n := c.toNat
  if n < 128 then [n]
  else if n < 2048 then [192 + n / 64, 128 + n % 64]
  else if n < 65536 then [224 + n / 4096, 128 + (n / 64) % 64, 128 + n % 64]
  else [240 + n / 262144, 128 + (n / 4096) % 64, 128 + (n / 64) % 64, 128 + n % 64]

/-- Percent-encoding of one character, byte by byte over its UTF-8
serialization. -/
def percentEncodeChar (c : Char) : String :=
  String.join ((utf8Bytes c).map
    (fun b => "%" ++ String.singleton (hexDigit (b / 16))
      ++ String.singleton (hexDigit (b % 16))))

/-- application/x-www-form-urlencoded serialization of one component, as
URLSearchParams.toString performs it: safe characters kept, space becomes
a plus sign, everything else percent-encoded. -/
def formEncode (s : String) : String :=
  String.join (s.data.map (fun c =>
    if isUrlencodedSafe c then String.singleton c
    else if c = ' ' then "+" else percentEncodeChar c))

/-- prepareUrl of src/methods.ts: without a query mapping the URL is
unchanged; otherwise null/undefined entries are dropped, the rest are
stringified and URL-encoded in the given order, and a nonempty query
string is appended with a question mark, or with an ampersand when the
URL already contains a question mark. -/
def prepareUrl (url : String) (query : Option (List (String × QueryVal))) : String :=
  match query with
  | none => url
  | some q =>
      let params := (q.filter (fun p => keepQV p.2)).map
        (fun p => formEncode p.1 ++ "=" ++ formEncode (stringifyQV p.2))
      let queryString := String.intercalate "&" params
      if !(queryString = "") then
        let separator := if msgIncludes url "?" then "&" else "?"
        url ++ separator ++ queryString
      else url

/-! ## Concrete instances used by witnesses and counterexamples -/

/-- A schema that rejects every value with one issue. -/
def failSchema : Schema := fun _ => StdResult.failure [⟨"bad"⟩]

/-- A schema that accepts every value unchanged. -/
def idSchema : Schema := fun v => StdResult.success v

/-- A schema whose well-formed success value is undefined, for every
input. -/
def undefSchema : Schema := fun _ => StdResult.success Value.vUndefined

/-- A fetch oracle that always yields an ok response whose body parses to
the string value data. -/
def okFetch : Nat → FetchOut := fun _ => FetchOut.success ⟨⟨200, "OK"⟩, Except.ok (Value.vStr "data")⟩

/-- An operation that always raises a ValidationError. -/
def opValidation : Nat → Except Err Nat := fun _ => Except.error (Err.validationError "bad input" [])

/-- An operation that always raises HTTP 500. -/
def opHttp500 : Nat → Except Err Nat :=
  fun _ => Except.error (Err.httpError "HTTP 500: ISE" ⟨500, "ISE"⟩ none)

/-- Options for the C2 counterexample: a schema-paired onSuccess whose
result always fails validation, next to a registered onValidationError
slot. -/
def c2opts : Options :=
  { onSuccess := some (CallbackOption.withSchema failSchema (fun v => Except.ok v)),
    onValidationError := some (CallbackOption.plain (fun _ => Except.ok (Value.vStr "recovered"))) }

/-- The callback-result ValidationError arising in the C2 counterexample. -/
def c2err : Err := Err.validationError "Callback result validation failed: bad" [⟨"bad"⟩]

/-- The C2 options with the onValidationError slot removed, for the
amended claim's witness. -/
def c2optsNoSlot : Options :=
  { onSuccess := some (CallbackOption.withSchema failSchema (fun v => Except.ok v)) }

/-- The ok response of the C2 scenario. -/
def c2resp : Resp := ⟨⟨200, "OK"⟩, Except.ok (Value.vStr "data")⟩

/-- Options carrying only a rejecting input schema, for the C4 witness. -/
def c4opts : Options := { schemas := some { input := some failSchema } }

/-- A non-ok response whose body is not valid JSON, for the C5
counterexample. -/
def c5resp : Resp := ⟨⟨500, "Internal Server Error"⟩, Except.error "Unexpected token"⟩

/-- A non-ok response whose body parses to the string value payload, for
the C5 witness. -/
def c5respParsed : Resp := ⟨⟨500, "Internal Server Error"⟩, Except.ok (Value.vStr "payload")⟩

/-- Options registering a plain onSuccess handler that returns undefined,
for the C7 witness. -/
def c7opts : Options :=
  { onSuccess := some (CallbackOption.plain (fun _ => Except.ok Value.vUndefined)) }

/-- Per-request options overriding retry and timeout, for the C8 witness. -/
def c8opts : Options :=
  { retry := some { attempts := some 5 }, timeout := some 7000 }

/-- Global configuration with a default retry policy and timeout, for the
C8 witness. -/
def c8config : ArcessoConfig :=
  { retry := some { attempts := some 2 }, timeout := some 5000 }

/-- Options carrying an input schema that validates to undefined, for the
C10 witness. -/
def c10opts : Options := { schemas := some { input := some undefSchema } }

/-! ## Retry controller lemmas -/

theorem withRetryFrom_ok_eq {α : Type} (fn : Nat → Except Err α) (o : RetryOptionsR)
    (attempt : Nat) (last : Option Err) (n : Nat) (v : α)
    (hfn : fn attempt = Except.ok v) :
    withRetryFrom fn o attempt last (n + 1) = ⟨Except.ok v, 1, [], []⟩ := by
  simp [withRetryFrom, hfn]

theorem withRetryFrom_stop_eq {α : Type} (fn : Nat → Except Err α) (o : RetryOptionsR)
    (attempt : Nat) (last : Option Err) (n : Nat) (e : Err)
    (hfn : fn attempt = Except.error e)
    (hstop : attempt = o.attempts ∨ shouldRetry e o = false) :
    withRetryFrom fn o attempt last (n + 1) = ⟨Except.error e, 1, [], []⟩ := by
  rcases hstop with h | h
  · subst h; simp [withRetryFrom, hfn]
  · simp [withRetryFrom, hfn, h]

theorem withRetryFrom_retry_result {α : Type} (fn : Nat → Except Err α) (o : RetryOptionsR)
    (attempt : Nat) (last : Option Err) (n : Nat) (e : Err)
    (hfn : fn attempt = Except.error e)
    (hne : ¬ attempt = o.attempts) (hr : shouldRetry e o = true) :
    (withRetryFrom fn o attempt last (n + 1)).result
      = (withRetryFrom fn o (attempt + 1) (some e) n).result := by
  simp [withRetryFrom, hfn, hne, hr]

theorem withRetryFrom_retry_calls {α : Type} (fn : Nat → Except Err α) (o : RetryOptionsR)
    (attempt : Nat) (last : Option Err) (n : Nat) (e : Err)
    (hfn : fn attempt = Except.error e)
    (hne : ¬ attempt = o.attempts) (hr : shouldRetry e o = true) :
    (withRetryFrom fn o attempt last (n + 1)).calls
      = (withRetryFrom fn o (attempt + 1) (some e) n).calls + 1 := by
  simp [withRetryFrom, hfn, hne, hr]

theorem withRetryFrom_calls_pos {α : Type} (fn : Nat → Except Err α) (o : RetryOptionsR)
    (attempt : Nat) (last : Option Err) (n : Nat) :
    1 ≤ (withRetryFrom fn o attempt last (n + 1)).calls := by
  cases hfn : fn attempt with
  | ok v => rw [withRetryFrom_ok_eq fn o attempt last n v hfn]
  | error e =>
      by_cases ha : attempt = o.attempts
      · rw [withRetryFrom_stop_eq fn o attempt last n e hfn (Or.inl ha)]
      · cases hr : shouldRetry e o with
        | false => rw [withRetryFrom_stop_eq fn o attempt last n e hfn (Or.inr hr)]
        | true => rw [withRetryFrom_retry_calls fn o attempt last n e hfn ha hr]; omega

theorem withRetryFrom_error_src {α : Type} (fn : Nat → Except Err α) (o : RetryOptionsR) :
    ∀ (n attempt : Nat) (last : Option Err) (e : Err),
      attempt + n = o.attempts + 1 → 1 ≤ n →
      (withRetryFrom fn o attempt last n).result = Except.error e →
      fn (attempt + (withRetryFrom fn o attempt last n).calls - 1) = Except.error e := by
  intro n
  induction n with
  | zero => intro attempt last e _ h2 _; omega
  | succ m ih =>
      intro attempt last e hsum _ hres
      cases hfn : fn attempt with
      | ok v =>
          rw [withRetryFrom_ok_eq fn o attempt last m v hfn] at hres
          exact absurd hres (by simp)
      | error e0 =>
          by_cases ha : attempt = o.attempts
          · rw [withRetryFrom_stop_eq fn o attempt last m e0 hfn (Or.inl ha)] at hres ⊢
            simp only [Except.error.injEq] at hres
            subst hres
            simpa using hfn
          · cases hr : shouldRetry e0 o with
            | false =>
                rw [withRetryFrom_stop_eq fn o attempt last m e0 hfn (Or.inr hr)] at hres ⊢
                simp only [Except.error.injEq] at hres
                subst hres
                simpa using hfn
            | true =>
                rw [withRetryFrom_retry_result fn o attempt last m e0 hfn ha hr] at hres
                rw [withRetryFrom_retry_calls fn o attempt last m e0 hfn ha hr]
                have hm : 1 ≤ m := by omega
                have hsum2 : (attempt + 1) + m = o.attempts + 1 := by omega
                have hrec := ih (attempt + 1) (some e0) e hsum2 hm hres
                have hidx : attempt + ((withRetryFrom fn o (attempt + 1) (some e0) m).calls + 1) - 1
                    = attempt + 1 + (withRetryFrom fn o (attempt + 1) (some e0) m).calls - 1 := by
                  omega
                rw [hidx]
                exact hrec

/-- Claim C1: during a retried execution, an HttpError raised by the
operation is retried iff its status is in the policy's retryable status
set, a NetworkError is always retried when attempts remain, and a
ValidationError or TimeoutError is never retried: for those exactly one
attempt of the operation occurs, regardless of remaining attempts. -/
theorem retry_eligibility {α : Type} (fn : Nat → Except Err α) (ro : Option RetryOptions)
    (h1 : 1 ≤ (mergeRetryDefaults ro).attempts) :
    (∀ m is, fn 1 = Except.error (Err.validationError m is) →
        (withRetry fn ro).calls = 1 ∧
        (withRetry fn ro).result = Except.error (Err.validationError m is)) ∧
    (∀ m t, fn 1 = Except.error (Err.timeoutError m t) →
        (withRetry fn ro).calls = 1 ∧
        (withRetry fn ro).result = Except.error (Err.timeoutError m t)) ∧
    (∀ m h d, fn 1 = Except.error (Err.httpError m h d) →
        ((mergeRetryDefaults ro).retryOn.contains h.status = false →
          (withRetry fn ro).calls = 1 ∧
          (withRetry fn ro).result = Except.error (Err.httpError m h d)) ∧
        ((mergeRetryDefaults ro).retryOn.contains h.status = true →
          2 ≤ (mergeRetryDefaults ro).attempts →
          2 ≤ (withRetry fn ro).calls)) ∧
    (∀ m c, fn 1 = Except.error (Err.networkError m c) →
        2 ≤ (mergeRetryDefaults ro).attempts →
        2 ≤ (withRetry fn ro).calls) := by
  have hunfold : withRetry fn ro
      = withRetryFrom fn (mergeRetryDefaults ro) 1 none (mergeRetryDefaults ro).attempts := rfl
  obtain ⟨k, hk⟩ : ∃ k, (mergeRetryDefaults ro).attempts = k + 1 :=
    ⟨(mergeRetryDefaults ro).attempts - 1, by omega⟩
  refine ⟨?_, ?_, ?_, ?_⟩
  · intro m is hfn
    rw [hunfold, hk, withRetryFrom_stop_eq fn _ 1 none k _ hfn (Or.inr rfl)]
    exact ⟨rfl, rfl⟩
  · intro m t hfn
    rw [hunfold, hk, withRetryFrom_stop_eq fn _ 1 none k _ hfn (Or.inr rfl)]
    exact ⟨rfl, rfl⟩
  · intro m h d hfn
    constructor
    · intro hcont
      have hsr : shouldRetry (Err.httpError m h d) (mergeRetryDefaults ro) = false := hcont
      rw [hunfold, hk, withRetryFrom_stop_eq fn _ 1 none k _ hfn (Or.inr hsr)]
      exact ⟨rfl, rfl⟩
    · intro hcont h2
      have hsr : shouldRetry (Err.httpError m h d) (mergeRetryDefaults ro) = true := hcont
      have hne : ¬ (1 = (mergeRetryDefaults ro).attempts) := by omega
      obtain ⟨j, hj⟩ : ∃ j, k = j + 1 := ⟨k - 1, by omega⟩
      rw [hunfold, hk, hj, withRetryFrom_retry_calls fn _ 1 none (j + 1) _ hfn hne hsr]
      have := withRetryFrom_calls_pos fn (mergeRetryDefaults ro) (1 + 1)
        (some (Err.httpError m h d)) j
      omega
  · intro m c hfn h2
    have hsr : shouldRetry (Err.networkError m c) (mergeRetryDefaults ro) = true := rfl
    have hne : ¬ (1 = (mergeRetryDefaults ro).attempts) := by omega
    obtain ⟨j, hj⟩ : ∃ j, k = j + 1 := ⟨k - 1, by omega⟩
    rw [hunfold, hk, hj, withRetryFrom_retry_calls fn _ 1 none (j + 1) _ hfn hne hsr]
    have := withRetryFrom_calls_pos fn (mergeRetryDefaults ro) (1 + 1)
      (some (Err.networkError m c)) j
    omega

/-- Witness for claim C1: with the default policy (3 attempts), an
operation that always raises a ValidationError is invoked exactly once
and the error is re-raised. -/
theorem retry_eligibility_witness :
    (withRetry opValidation none).calls = 1 ∧
    (withRetry opValidation none).result
      = Except.error (Err.validationError "bad input" []) :=
  (retry_eligibility opValidation none (by decide)).1 "bad input" [] rfl

/-- Claim C3: when the last allowed attempt fails, withRetry re-raises
that attempt's original error unchanged, and as long as the operation
itself never raises RetryExhaustedError, no caller of withRetry can
observe a RetryExhaustedError (the fallthrough after the loop is
unreachable for policies with at least one attempt). -/
theorem retry_rethrows_last_error {α : Type} (fn : Nat → Except Err α)
    (ro : Option RetryOptions)
    (h1 : 1 ≤ (mergeRetryDefaults ro).attempts)
    (h2 : ∀ k e, fn k = Except.error e → e.isRetryExhausted = false) :
    ∀ e, (withRetry fn ro).result = Except.error e →
      fn ((withRetry fn ro).calls) = Except.error e ∧ e.isRetryExhausted = false := by
  intro e hres
  have hunfold : withRetry fn ro
      = withRetryFrom fn (mergeRetryDefaults ro) 1 none (mergeRetryDefaults ro).attempts := rfl
  rw [hunfold] at hres
  have hsrc := withRetryFrom_error_src fn (mergeRetryDefaults ro)
    (mergeRetryDefaults ro).attempts 1 none e (by omega) h1 hres
  have hidx : 1 + (withRetryFrom fn (mergeRetryDefaults ro) 1 none
      (mergeRetryDefaults ro).attempts).calls - 1
      = (withRetryFrom fn (mergeRetryDefaults ro) 1 none
        (mergeRetryDefaults ro).attempts).calls := by omega
  rw [hidx] at hsrc
  rw [hunfold]
  exact ⟨hsrc, h2 _ e hsrc⟩

/-- Witness for claim C3: an operation that always raises HTTP 500 under
a two-attempt policy; the error reaching the caller is the operation's
own error from the final attempt and is not a RetryExhaustedError. -/
theorem retry_rethrows_last_error_witness :
    opHttp500 ((withRetry opHttp500 (some { attempts := some 2 })).calls)
      = Except.error (Err.httpError "HTTP 500: ISE" ⟨500, "ISE"⟩ none) ∧
    Err.isRetryExhausted (Err.httpError "HTTP 500: ISE" ⟨500, "ISE"⟩ none) = false :=
  retry_rethrows_last_error opHttp500 (some { attempts := some 2 }) (by decide)
    (by intro k e h
        simp only [opHttp500, Except.error.injEq] at h
        subst h
        rfl)
    (Err.httpError "HTTP 500: ISE" ⟨500, "ISE"⟩ none) rfl

/-- Claim C6: for every attempt index at least 1, the computed retry
delay is initialDelay times 2 to the power (attempt - 1) for exponential
backoff and initialDelay times attempt for linear backoff, capped at
maxDelay in both cases. -/
theorem delay_formula (n : Nat) (o : RetryOptionsR) (_h : 1 ≤ n) :
    (o.backoff = Backoff.exponential →
        calculateDelay n o = min (o.initialDelay * 2 ^ (n - 1)) o.maxDelay) ∧
    (o.backoff = Backoff.linear →
        calculateDelay n o = min (o.initialDelay * n) o.maxDelay) := by
  constructor <;> intro hb <;> simp [calculateDelay, hb]

/-- Witness for claim C6: the exponential formula at attempt 3 with the
default numbers. -/
theorem delay_formula_witness :
    1 ≤ 3 ∧ calculateDelay 3 ⟨3, Backoff.exponential, 1000, 10000, [500]⟩
      = min (1000 * 2 ^ (3 - 1)) 10000 :=
  ⟨by decide,
   (delay_formula 3 ⟨3, Backoff.exponential, 1000, 10000, [500]⟩ (by decide)).1 rfl⟩

/-! ## Orchestrator and dispatcher theorems -/

/-- Counterexample to claim C2: with an onValidationError slot
registered, the ValidationError carrying the callback-result prefix,
raised because the schema-paired onSuccess handler result failed its
schema, is routed into the onValidationError callback and does not
propagate: the invocation resolves with that callback's value. -/
theorem callback_result_error_routing_counterexample :
    executeCallback c2opts.onSuccess (Value.vStr "data") = Except.error c2err ∧
    Err.isValidation c2err = true ∧
    msgIncludes c2err.message "Callback result validation failed" = true ∧
    parsePhase c2opts c2resp = Except.error c2err ∧
    innerCatchPhase c2opts c2err = Except.ok (Value.vStr "recovered") ∧
    (executeHttpRequestWithCallbacks c2opts {} Value.vUndefined okFetch).result
      = Except.ok (Value.vStr "recovered") := by
  refine ⟨rfl, rfl, by decide, rfl, rfl, rfl⟩

/-- Amended claim C2: a ValidationError whose message carries the
callback-result prefix is never routed by the outer error routing (no
onHttpError, onNetworkError, onTimeout or onError slot receives it; the
outer catch re-raises it), and when no onValidationError slot is
registered such an error arising while parsing and dispatching the
success response always propagates to the caller.  When an
onValidationError slot is registered, however, the inner catch routes the
error into that slot. -/
theorem callback_result_error_never_routed_outer (o : Options) (g : ArcessoConfig)
    (body : Value) (fetchFn : Nat → FetchOut) (resp : Resp) (vb : Value) (e : Err)
    (hval : e.isValidation = true)
    (hmsg : msgIncludes e.message "Callback result validation failed" = true) :
    routeOuter o e = Except.error e ∧
    (o.onValidationError = none →
      validateInputPhase o.inputSchema body = Except.ok vb →
      (executeHttpRequestT fetchFn (resolveRetry o g) (resolveTimeout o g)
          o.errorSchema).result = Except.ok resp →
      parsePhase o resp = Except.error e →
      (executeHttpRequestWithCallbacks o g body fetchFn).result = Except.error e) := by
  have hroute : routeOuter o e = Except.error e := by
    unfold routeOuter
    simp [hval, hmsg]
  refine ⟨hroute, ?_⟩
  intro hnone hvin htrace hparse
  simp only [executeHttpRequestWithCallbacks, hvin, htrace, hparse]
  simp [innerCatchPhase, hval, hnone, hroute]

/-- Witness for the amended claim C2: the C2 scenario without an
onValidationError slot; the callback-result ValidationError reaches the
caller. -/
theorem callback_result_error_never_routed_outer_witness :
    routeOuter c2optsNoSlot c2err = Except.error c2err ∧
    (executeHttpRequestWithCallbacks c2optsNoSlot {} Value.vUndefined okFetch).result
      = Except.error c2err := by
  have h := callback_result_error_never_routed_outer c2optsNoSlot {} Value.vUndefined okFetch
    c2resp Value.vUndefined c2err rfl (by decide)
  exact ⟨h.1, h.2 rfl rfl rfl rfl⟩

/-- Claim C4: a body failing the input schema raises a ValidationError
whose message starts with the input prefix, and zero network exchanges
occur. -/
theorem input_gate_blocks_exchange (o : Options) (g : ArcessoConfig) (body : Value)
    (fetchFn : Nat → FetchOut) (s : Schema) (issues : List Issue)
    (hs : o.inputSchema = some s)
    (hu : body.isUndefined = false) (hn : body.isNull = false)
    (hf : s body = StdResult.failure issues) :
    (executeHttpRequestWithCallbacks o g body fetchFn).exchanges = 0 ∧
    (executeHttpRequestWithCallbacks o g body fetchFn).result
      = Except.error (Err.validationError
          ("Input validation failed: " ++ firstIssueMessage issues) issues) ∧
    msgStartsWith ("Input validation failed: " ++ firstIssueMessage issues)
      "Input validation failed" = true := by
  have hvi : validateInputPhase o.inputSchema body
      = Except.error (Err.validationError
          ("Input validation failed: " ++ firstIssueMessage issues) issues) := by
    simp [validateInputPhase, hs, hu, hn, hf]
  refine ⟨?_, ?_, ?_⟩
  · simp [executeHttpRequestWithCallbacks, hvi]
  · simp [executeHttpRequestWithCallbacks, hvi]
  · have hA : "Input validation failed: " = "Input validation failed" ++ ": " := rfl
    unfold msgStartsWith
    rw [hA, String.data_append, String.data_append, List.append_assoc,
      List.isPrefixOf_iff_prefix]
    exact List.prefix_append _ _

/-- Witness for claim C4: a rejecting input schema blocks the exchange. -/
theorem input_gate_blocks_exchange_witness :
    (executeHttpRequestWithCallbacks c4opts {} (Value.vStr "body") okFetch).exchanges = 0 ∧
    (executeHttpRequestWithCallbacks c4opts {} (Value.vStr "body") okFetch).result
      = Except.error (Err.validationError
          ("Input validation failed: " ++ firstIssueMessage [⟨"bad"⟩]) [⟨"bad"⟩]) ∧
    msgStartsWith ("Input validation failed: " ++ firstIssueMessage [⟨"bad"⟩])
      "Input validation failed" = true :=
  input_gate_blocks_exchange c4opts {} (Value.vStr "body") okFetch failSchema [⟨"bad"⟩]
    rfl rfl rfl rfl

/-- Counterexample to claim C5: for a non-ok response whose body is not
valid JSON, the non-validation parse error raised during the
clone/parse/validate step does not propagate unchanged: the executor's
generic catch wraps it into a NetworkError. -/
theorem error_schema_wrap_counterexample :
    fetchWithRetryBody (FetchOut.success c5resp) none (some failSchema)
      = Except.error (Err.networkError "Network error: Unexpected token"
          (some (Err.jsError "SyntaxError" "Unexpected token"))) ∧
    Err.isValidation (Err.jsError "SyntaxError" "Unexpected token") = false :=
  ⟨rfl, rfl⟩

/-- Amended claim C5: for a non-success response with an error schema,
a body that parses and validates yields an HttpError carrying the
validated data; a validation failure yields an HttpError without data;
and a non-validation exception from the clone/parse/validate step (a JSON
parse error) is caught by the executor's generic failure classifier and
wrapped into a NetworkError rather than propagating unchanged. -/
theorem error_schema_validation_outcomes (r : Resp) (timeout : Option Nat) (s : Schema)
    (hok : r.handle.ok = false) :
    (∀ v, r.json (some s) = Except.ok v →
      fetchWithRetryBody (FetchOut.success r) timeout (some s)
        = Except.error (Err.httpError (httpMsg r.handle) r.handle (some v))) ∧
    (∀ e, r.json (some s) = Except.error e → e.isValidation = true →
      fetchWithRetryBody (FetchOut.success r) timeout (some s)
        = Except.error (Err.httpError (httpMsg r.handle) r.handle none)) ∧
    (∀ m, r.parse = Except.error m →
      fetchWithRetryBody (FetchOut.success r) timeout (some s)
        = Except.error (Err.networkError ("Network error: " ++ m)
            (some (Err.jsError "SyntaxError" m)))) := by
  refine ⟨?_, ?_, ?_⟩
  · intro v hjson
    simp [fetchWithRetryBody, fetchTryBody, hok, hjson, classifyFetchFailure,
      Err.isHttp]
  · intro e hjson hval
    simp [fetchWithRetryBody, fetchTryBody, hok, hjson, hval, classifyFetchFailure,
      Err.isHttp]
  · intro m hparse
    have hjson : r.json (some s) = Except.error (Err.jsError "SyntaxError" m) := by
      simp [Resp.json, hparse]
    simp [fetchWithRetryBody, fetchTryBody, hok, hjson, classifyFetchFailure,
      Err.isValidation, Err.isHttp, Err.name, Err.message]

/-- Witness for the amended claim C5: all three outcomes at concrete
non-ok responses. -/
theorem error_schema_validation_outcomes_witness :
    fetchWithRetryBody (FetchOut.success c5respParsed) none (some idSchema)
      = Except.error (Err.httpError (httpMsg c5respParsed.handle) c5respParsed.handle
          (some (Value.vStr "payload"))) ∧
    fetchWithRetryBody (FetchOut.success c5respParsed) none (some failSchema)
      = Except.error (Err.httpError (httpMsg c5respParsed.handle) c5respParsed.handle none) ∧
    fetchWithRetryBody (FetchOut.success c5resp) none (some idSchema)
      = Except.error (Err.networkError ("Network error: " ++ "Unexpected token")
          (some (Err.jsError "SyntaxError" "Unexpected token"))) := by
  refine ⟨?_, ?_, ?_⟩
  · exact (error_schema_validation_outcomes c5respParsed none idSchema rfl).1 _ rfl
  · exact (error_schema_validation_outcomes c5respParsed none failSchema rfl).2.1 _ rfl rfl
  · exact (error_schema_validation_outcomes c5resp none idSchema rfl).2.2 "Unexpected token" rfl

/-- Claim C7: dispatching with no callback returns the input unchanged; a
plain handler returning undefined falls back to the input, otherwise its
result is returned; in particular a plain onSuccess handler returning
undefined yields the original parsed success value. -/
theorem callback_passthrough :
    (∀ input, executeCallback none input = Except.ok input) ∧
    (∀ h input, h input = Except.ok Value.vUndefined →
      executeCallback (some (CallbackOption.plain h)) input = Except.ok input) ∧
    (∀ h input v, h input = Except.ok v → v.isUndefined = false →
      executeCallback (some (CallbackOption.plain h)) input = Except.ok v) ∧
    (∀ (o : Options) (resp : Resp) (d : Value) (h : Value → Except Err Value),
      resp.json o.successSchema = Except.ok d →
      o.onSuccess = some (CallbackOption.plain h) →
      h d = Except.ok Value.vUndefined →
      parsePhase o resp = Except.ok d) := by
  refine ⟨fun input => rfl, ?_, ?_, ?_⟩
  · intro h input hh
    simp [executeCallback, hh, Value.isUndefined]
  · intro h input v hh hv
    simp [executeCallback, hh, hv]
  · intro o resp d h hjson hcb hh
    simp [parsePhase, hjson, hcb, executeCallback, hh, Value.isUndefined]

/-- Witness for claim C7: a plain handler returning undefined passes the
input through, also via the onSuccess slot of the parse phase. -/
theorem callback_passthrough_witness :
    executeCallback (some (CallbackOption.plain (fun _ => Except.ok Value.vUndefined)))
      (Value.vStr "x") = Except.ok (Value.vStr "x") ∧
    parsePhase c7opts ⟨⟨200, "OK"⟩, Except.ok (Value.vStr "x")⟩
      = Except.ok (Value.vStr "x") := by
  constructor
  · exact callback_passthrough.2.1 _ (Value.vStr "x") rfl
  · exact callback_passthrough.2.2.2 c7opts ⟨⟨200, "OK"⟩, Except.ok (Value.vStr "x")⟩
      (Value.vStr "x") _ rfl rfl rfl

/-- Counterexample to claim C8: a per-request timeout of 0 is a present
value but does not override the global default; JavaScript truthiness
makes the resolved timeout the global value. -/
theorem resolve_precedence_counterexample :
    resolveTimeout { timeout := some 0 } { timeout := some 5000 } = some 5000 ∧
    some (5000 : Nat) ≠ some 0 :=
  ⟨rfl, by decide⟩

/-- Amended claim C8: a per-request retry policy overrides the global
default wholesale whenever present; a per-request timeout overrides the
global default wholesale whenever present and nonzero, while a
present-but-zero per-request timeout falls back to the global default;
resolution is a pure function of the single call's options and the global
configuration, so one call's override cannot affect another call. -/
theorem resolve_precedence (o : Options) (g : ArcessoConfig) :
    (∀ r, o.retry = some r → resolveRetry o g = some r) ∧
    (o.retry = none → resolveRetry o g = g.retry) ∧
    (∀ t, o.timeout = some t → ¬ t = 0 → resolveTimeout o g = some t) ∧
    (o.timeout = some 0 → resolveTimeout o g = g.timeout) ∧
    (o.timeout = none → resolveTimeout o g = g.timeout) := by
  refine ⟨?_, ?_, ?_, ?_, ?_⟩
  · intro r h; simp [resolveRetry, h]
  · intro h; simp [resolveRetry, h]
  · intro t h ht; simp [resolveTimeout, h, ht]
  · intro h; simp [resolveTimeout, h]
  · intro h; simp [resolveTimeout, h]

/-- Witness for the amended claim C8: concrete per-request overrides of
both the retry policy and the timeout. -/
theorem resolve_precedence_witness :
    resolveRetry c8opts c8config = some { attempts := some 5 } ∧
    resolveTimeout c8opts c8config = some 7000 := by
  have h := resolve_precedence c8opts c8config
  exact ⟨h.1 _ rfl, h.2.2.1 7000 rfl (by decide)⟩

/-- Claim C9: query construction drops entries whose value is null or
undefined, stringifies and URL-encodes the remaining values preserving
the given order, appends them with a question mark when the URL has no
query string and an ampersand when it already has one, and returns the
URL unchanged for an empty effective query. -/
theorem query_construction :
    (∀ url pre post k,
      prepareUrl url (some (pre ++ (k, QueryVal.qNull) :: post))
        = prepareUrl url (some (pre ++ post)) ∧
      prepareUrl url (some (pre ++ (k, QueryVal.qUndefined) :: post))
        = prepareUrl url (some (pre ++ post))) ∧
    prepareUrl "/api/users" (some [("page", QueryVal.qNum 1), ("active", QueryVal.qBool true),
        ("name", QueryVal.qStr "John"), ("optional", QueryVal.qNull),
        ("missing", QueryVal.qUndefined)])
      = "/api/users?page=1&active=true&name=John" ∧
    prepareUrl "/api/users?page=1" (some [("active", QueryVal.qBool true)])
      = "/api/users?page=1&active=true" ∧
    prepareUrl "/s" (some [("q", QueryVal.qStr "a b&c")]) = "/s?q=a+b%26c" ∧
    (∀ url k k2, prepareUrl url (some [(k, QueryVal.qNull), (k2, QueryVal.qUndefined)]) = url) ∧
    (∀ url, prepareUrl url none = url) := by
  refine ⟨?_, by decide, by decide, by decide, ?_, fun url => rfl⟩
  · intro url pre post k
    constructor <;> simp [prepareUrl, List.filter_append, List.filter_cons, keepQV]
  · intro url k k2
    rfl

/-- Claim C10: at each schema-validation site, a well-formed Success
whose value is undefined is treated as a failure: the input gate raises
the generic input ValidationError and performs no exchange, response
parsing raises the generic ValidationError, and the callback dispatcher
raises the generic callback-result ValidationError. -/
theorem undefined_success_is_failure (o : Options) (g : ArcessoConfig) (body : Value)
    (fetchFn : Nat → FetchOut) (s : Schema) (r : Resp) (d input rv : Value)
    (h : Value → Except Err Value) :
    (o.inputSchema = some s → body.isUndefined = false → body.isNull = false →
      s body = StdResult.success Value.vUndefined →
      executeHttpRequestWithCallbacks o g body fetchFn
        = ⟨Except.error (Err.validationError "Unknown input validation error" []), 0⟩) ∧
    (r.parse = Except.ok d → s d = StdResult.success Value.vUndefined →
      r.json (some s) = Except.error (Err.validationError "Unknown validation error" [])) ∧
    (h input = Except.ok rv → s rv = StdResult.success Value.vUndefined →
      executeCallback (some (CallbackOption.withSchema s h)) input
        = Except.error
            (Err.validationError "Callback result validation failed: Unknown error" [])) := by
  refine ⟨?_, ?_, ?_⟩
  · intro hs hu hn hsucc
    have hvi : validateInputPhase o.inputSchema body
        = Except.error (Err.validationError "Unknown input validation error" []) := by
      simp only [validateInputPhase, hs, hu, hn, hsucc]
      rfl
    simp [executeHttpRequestWithCallbacks, hvi]
  · intro hp hsucc
    simp [Resp.json, hp, hsucc, Value.isUndefined]
  · intro hh hsucc
    simp [executeCallback, hh, hsucc, Value.isUndefined]

/-- Witness for claim C10: the three sites at concrete inputs with a
schema validating everything to undefined. -/
theorem undefined_success_is_failure_witness :
    executeHttpRequestWithCallbacks c10opts {} (Value.vStr "body") okFetch
      = ⟨Except.error (Err.validationError "Unknown input validation error" []), 0⟩ ∧
    Resp.json ⟨⟨200, "OK"⟩, Except.ok (Value.vStr "data")⟩ (some undefSchema)
      = Except.error (Err.validationError "Unknown validation error" []) ∧
    executeCallback (some (CallbackOption.withSchema undefSchema (fun v => Except.ok v)))
      (Value.vStr "x")
      = Except.error
          (Err.validationError "Callback result validation failed: Unknown error" []) := by
  have h := undefined_success_is_failure c10opts {} (Value.vStr "body") okFetch undefSchema
    ⟨⟨200, "OK"⟩, Except.ok (Value.vStr "data")⟩ (Value.vStr "data") (Value.vStr "x")
    (Value.vStr "x") (fun v => Except.ok v)
  exact ⟨h.1 rfl rfl rfl rfl, h.2.1 rfl rfl, h.2.2 rfl rfl⟩

end Arcesso
